import Mathlib

set_option maxHeartbeats 2000000

namespace QueryFanout

-- Shallow embedding of `query_fanout_computer_use.py` and
-- `computers/browserbase/browserbase.py`.  Pure string manipulation is
-- translated directly; browser interaction is modelled by explicit
-- oracles (tick traces for the pollers, behaviour records for the
-- session teardown, an environment record for `query_service`).

-- ### String helpers (ASCII models of Python/JS string primitives) ###

/-- Whitespace characters recognised by Python `str.strip()` and JS
`String.prototype.trim()` (ASCII subset; 11 and 12 are vertical tab and
form feed). -/
def isPySpace (c : Char) : Bool :=
  c == ' ' || c == '\t' || c == '\n' || c == '\r' || c == Char.ofNat 11 || c == Char.ofNat 12

/-- Strip leading and trailing whitespace from a character list. -/
def trimChars (l : List Char) : List Char :=
  ((l.dropWhile isPySpace).reverse.dropWhile isPySpace).reverse

/-- Model of Python `str.strip()` / JS `String.prototype.trim()`. -/
def strTrim (s : String) : String := String.mk (trimChars s.data)

/-- Model of JS `substring(0, n)` / Python `[:n]` slicing. -/
def strTake (n : Nat) (s : String) : String := String.mk (s.data.take n)

/-- Model of Python `str.lower()`. -/
def strLower (s : String) : String := String.mk (s.data.map Char.toLower)

/-- Model of JS `String.prototype.startsWith`. -/
def strStartsWith (s p : String) : Bool := p.data.isPrefixOf s.data

/-- Does `needle` occur as a contiguous run inside the character list? -/
def infixOf (needle : List Char) : List Char → Bool
  | [] => needle.isEmpty
  | c :: rest => needle.isPrefixOf (c :: rest) || infixOf needle rest

/-- Substring containment: model of Python `needle in hay` and JS
`hay.includes(needle)`. -/
def containsSub (hay needle : String) : Bool := infixOf needle.data hay.data

-- ### Regex models for the SSE related-queries extraction ###

/-- Scan up to the first occurrence of `stopc`, returning the consumed
characters and the remainder after `stopc`.  When `nlFails` is true a
newline aborts the scan, modelling that regex `.` does not match a
newline. -/
def scanUntil (stopc : Char) (nlFails : Bool) : List Char → Option (List Char × List Char)
  | [] => none
  | c :: rest =>
    if c == stopc then some ([], rest)
    else if nlFails && c == '\n' then none
    else
      match scanUntil stopc nlFails rest with
      | some (cap, rem) => some (c :: cap, rem)
      | none => none

/-- The literal part of the pattern `related_queries": \[(.*?)\]`. -/
def relPat : List Char := String.data "related_queries\": ["

/-- Leftmost match of the capture group of
`re.findall(r'related_queries": \[(.*?)\]', body)`.  The Python code only
ever uses `matches[0]`, so only the first match is needed. -/
def findFirstRelated : List Char → Option (List Char)
  | [] => none
  | c :: rest =>
    if relPat.isPrefixOf (c :: rest) then
      match scanUntil ']' true ((c :: rest).drop relPat.length) with
      | some (cap, _) => some cap
      | none => findFirstRelated rest
    else findFirstRelated rest

/-- One-pass scanner equivalent to `re.findall(r'"([^"]*)"', s)`:
alternates between looking for an opening quote and accumulating the
capture until the closing quote; an unterminated capture yields no
match. -/
def quotedGo (cur : Option (List Char)) : List Char → List (List Char)
  | [] => []
  | c :: rest =>
    match cur with
    | none => if c == '"' then quotedGo (some []) rest else quotedGo none rest
    | some acc =>
      if c == '"' then acc.reverse :: quotedGo none rest
      else quotedGo (some (c :: acc)) rest

/-- All matches of `re.findall(r'"([^"]*)"', s)`. -/
def findQuoted (l : List Char) : List (List Char) := quotedGo none l

/-- The regex extraction applied to one captured SSE body: first pattern
`related_queries": \[(.*?)\]` (first match), then `"([^"]*)"` on the
captured group, then the filter
`[q for q in queries if q and q.strip() not in [',', ' ']]`.  This code
appears twice in the source: in `extract_related_queries_from_sse`
(lines 359-366) and inline in `query_service` (lines 744-747). -/
def matchedQueriesOfBody (body : String) : List String :=
  match findFirstRelated body.data with
  | none => []
  | some m0 =>
    ((findQuoted m0).map (fun cs => String.mk cs)).filter
      (fun q => !(q == "") && !(strTrim q == ",") && !(strTrim q == " "))

/-- The seen-set de-duplication pass of `extract_related_queries_from_sse`
(`seen = set(); for q in related_queries: if q not in seen: seen.add(q);
unique_queries.append(q)`), with the set modelled as the list of strings
added so far. -/
def dedupFirst (seen : List String) : List String → List String
  | [] => []
  | q :: rest => if q ∈ seen then dedupFirst seen rest else q :: dedupFirst (q :: seen) rest

/-- Model of `extract_related_queries_from_sse` (lines 350-376); a
captured response dict is represented by its `body` string. -/
def extract_related_queries_from_sse (captured_responses : List String) : List String :=
  dedupFirst [] (captured_responses.foldl (fun acc body => acc ++ matchedQueriesOfBody body) [])

/-- Specification-side definition, written from the spec's words rather
than the source: the unique-filtered version of a list in original
order — every string appears exactly once, at the position of its first
occurrence. -/
def firstSeenUnique : List String → List String
  | [] => []
  | q :: rest => q :: (firstSeenUnique rest).filter (fun x => !(x == q))

-- ### C6 helper lemmas ###

theorem dedupFirst_eq (l : List String) : ∀ seen,
    dedupFirst seen l = (firstSeenUnique l).filter (fun x => decide (x ∉ seen)) := by
  induction l with
  | nil => intro seen; rfl
  | cons q rest ih =>
    intro seen
    by_cases hq : q ∈ seen
    · rw [dedupFirst, if_pos hq, ih, firstSeenUnique]
      rw [List.filter_cons_of_neg (by simpa using hq), List.filter_filter]
      refine List.filter_congr ?_
      intro x _
      by_cases hxq : x = q
      · subst hxq; simp [hq]
      · simp [hxq]
    · rw [dedupFirst, if_neg hq, ih, firstSeenUnique]
      rw [List.filter_cons_of_pos (by simpa using hq), List.filter_filter]
      congr 1
      refine List.filter_congr ?_
      intro x _
      by_cases hxq : x = q
      · subst hxq; simp [hq]
      · simp [hxq, List.mem_cons]

theorem dedupFirst_mem (l : List String) : ∀ seen x,
    x ∈ dedupFirst seen l ↔ x ∈ l ∧ x ∉ seen := by
  induction l with
  | nil => intro seen x; simp [dedupFirst]
  | cons q rest ih =>
    intro seen x
    by_cases hq : q ∈ seen
    · rw [dedupFirst, if_pos hq, ih]
      constructor
      · rintro ⟨hr, hs⟩; exact ⟨List.mem_cons_of_mem _ hr, hs⟩
      · rintro ⟨hqr, hs⟩
        rcases List.mem_cons.mp hqr with h | h
        · subst h; exact absurd hq hs
        · exact ⟨h, hs⟩
    · rw [dedupFirst, if_neg hq]
      constructor
      · intro hx
        rcases List.mem_cons.mp hx with h | h
        · subst h; exact ⟨List.mem_cons_self _ _, hq⟩
        · rcases (ih (q :: seen) x).mp h with ⟨hr, hs⟩
          exact ⟨List.mem_cons_of_mem _ hr, fun hxs => hs (List.mem_cons_of_mem _ hxs)⟩
      · rintro ⟨hqr, hs⟩
        rcases List.mem_cons.mp hqr with h | h
        · subst h; exact List.mem_cons_self _ _
        · by_cases hxq : x = q
          · subst hxq; exact List.mem_cons_self _ _
          · exact List.mem_cons_of_mem _ ((ih (q :: seen) x).mpr
              ⟨h, by simp [List.mem_cons, hxq, hs]⟩)

theorem dedupFirst_nodup (l : List String) : ∀ seen, (dedupFirst seen l).Nodup := by
  induction l with
  | nil => intro seen; simp [dedupFirst]
  | cons q rest ih =>
    intro seen
    by_cases hq : q ∈ seen
    · rw [dedupFirst, if_pos hq]; exact ih seen
    · rw [dedupFirst, if_neg hq]
      refine List.Nodup.cons ?_ (ih (q :: seen))
      intro hmem
      exact ((dedupFirst_mem rest (q :: seen) q).mp hmem).2 (List.mem_cons_self _ _)

theorem dedupFirst_sublist (l : List String) : ∀ seen,
    (dedupFirst seen l).Sublist l := by
  induction l with
  | nil => intro seen; simp [dedupFirst]
  | cons q rest ih =>
    intro seen
    by_cases hq : q ∈ seen
    · rw [dedupFirst, if_pos hq]; exact (ih seen).cons q
    · rw [dedupFirst, if_neg hq]; exact (ih (q :: seen)).cons₂ q

theorem foldl_append_eq_join (rs : List String) : ∀ acc : List String,
    rs.foldl (fun acc body => acc ++ matchedQueriesOfBody body) acc
      = acc ++ (rs.map matchedQueriesOfBody).flatten := by
  induction rs with
  | nil => intro acc; simp
  | cons r rest ih => intro acc; simp [List.foldl_cons, ih, List.append_assoc]

/-- C6: de-duplication of extracted related queries preserves first-seen
order: `extract_related_queries_from_sse` produces exactly the
unique-filtered version (in original order, first occurrences kept) of
the concatenation of the per-response matched queries, and that output
has no duplicates, is a sublist of the concatenation, and contains
exactly its elements. -/
theorem claim_c6_dedup_first_seen_order (rs : List String) :
    extract_related_queries_from_sse rs
        = firstSeenUnique ((rs.map matchedQueriesOfBody).flatten)
      ∧ (extract_related_queries_from_sse rs).Nodup
      ∧ (extract_related_queries_from_sse rs).Sublist
          ((rs.map matchedQueriesOfBody).flatten)
      ∧ ∀ x, x ∈ extract_related_queries_from_sse rs
          ↔ x ∈ (rs.map matchedQueriesOfBody).flatten := by
  have hfold : rs.foldl (fun acc body => acc ++ matchedQueriesOfBody body) []
      = (rs.map matchedQueriesOfBody).flatten := by
    simpa using foldl_append_eq_join rs []
  unfold extract_related_queries_from_sse
  rw [hfold]
  refine ⟨?_, dedupFirst_nodup _ _, dedupFirst_sublist _ _, ?_⟩
  · rw [dedupFirst_eq]
    simp
  · intro x
    rw [dedupFirst_mem]
    simp

-- ### Source extractor models (extract_chatgpt_data / extract_perplexity_data) ###

/-- An anchor element as seen by the extraction scripts: its `href` URL
and the display text the JS computes for it (`title` attribute /
`innerText` / `aria-label` resolution is modelled as already done). -/
structure Link where
  url : String
  title : String
deriving DecidableEq

/-- The citation pass of `extract_chatgpt_data` (lines 519-529):
`sup a, [class*="citation"] a, [data-testid*="citation"]` anchors are
kept when the URL is truthy, starts with `http`, and does not contain
`chatgpt.com`; the pushed title is `text.substring(0,100) || 'Source'`. -/
def chatgptCitationPass : List Link → List Link → List Link
  | acc, [] => acc
  | acc, c :: rest =>
    if c.url ≠ "" ∧ strStartsWith c.url "http" = true ∧ containsSub c.url "chatgpt.com" = false then
      chatgptCitationPass
        (acc ++ [{ url := c.url,
                   title := if strTake 100 c.title = "" then "Source" else strTake 100 c.title }])
        rest
    else chatgptCitationPass acc rest

/-- The general-links pass of `extract_chatgpt_data` (lines 532-548):
every `a[href^="http"]` whose URL is truthy and unseen is pushed when it
contains neither `chatgpt.com` nor `openai.com`, and its URL is added to
the seen set. -/
def chatgptLinkPass : List Link → List String → List Link → List Link
  | acc, _, [] => acc
  | acc, seen, l :: rest =>
    if l.url ≠ "" ∧ seen.contains l.url = false then
      if containsSub l.url "chatgpt.com" = false ∧ containsSub l.url "openai.com" = false then
        chatgptLinkPass (acc ++ [{ url := l.url, title := strTake 100 l.title }])
          (seen ++ [l.url]) rest
      else chatgptLinkPass acc seen rest
    else chatgptLinkPass acc seen rest

/-- The `sources` component of `extract_chatgpt_data`'s page evaluation:
citation pass, then the general-links pass seeded with the citation
URLs (`seenUrls = new Set(sourcesList.map(s => s.url))`), then
`sourcesList.slice(0, 10)`. -/
def extract_chatgpt_sources (citations links : List Link) : List Link :=
  let s1 := chatgptCitationPass [] citations
  (chatgptLinkPass s1 (s1.map (fun s => s.url)) links).take 10

/-- The `sources` component of `extract_perplexity_data` (lines 601-611):
filter out empty hrefs, URLs containing `perplexity.ai` or `google.com`,
and links with blank trimmed text; then `.slice(0, 15)` and map to
`{url, title: text.trim().substring(0, 100)}`. -/
def extract_perplexity_sources (links : List Link) : List Link :=
  ((links.filter (fun a =>
      !(a.url == "") && !(containsSub a.url "perplexity.ai")
        && !(containsSub a.url "google.com") && !(strTrim a.title == ""))).take 15).map
    (fun a => { url := a.url, title := strTake 100 (strTrim a.title) })

-- ### C7 helper lemmas ###

theorem chatgptCitationPass_all (p : Link → Bool)
    (hp : ∀ c : Link, containsSub c.url "chatgpt.com" = false →
      p { url := c.url,
          title := if strTake 100 c.title = "" then "Source" else strTake 100 c.title } = true) :
    ∀ (cits acc : List Link), acc.all p = true → (chatgptCitationPass acc cits).all p = true := by
  intro cits
  induction cits with
  | nil => intro acc h; simpa [chatgptCitationPass] using h
  | cons c rest ih =>
    intro acc h
    rw [chatgptCitationPass]
    by_cases hc : c.url ≠ "" ∧ strStartsWith c.url "http" = true
        ∧ containsSub c.url "chatgpt.com" = false
    · rw [if_pos hc]
      refine ih _ ?_
      rw [List.all_append, h]
      simpa using hp c hc.2.2
    · rw [if_neg hc]; exact ih acc h

theorem chatgptLinkPass_all (p : Link → Bool)
    (hp : ∀ l : Link, containsSub l.url "chatgpt.com" = false →
      containsSub l.url "openai.com" = false →
      p { url := l.url, title := strTake 100 l.title } = true) :
    ∀ (links acc : List Link) (seen : List String),
      acc.all p = true → (chatgptLinkPass acc seen links).all p = true := by
  intro links
  induction links with
  | nil => intro acc seen h; simpa [chatgptLinkPass] using h
  | cons l rest ih =>
    intro acc seen h
    rw [chatgptLinkPass]
    by_cases h1 : l.url ≠ "" ∧ seen.contains l.url = false
    · rw [if_pos h1]
      by_cases h2 : containsSub l.url "chatgpt.com" = false
          ∧ containsSub l.url "openai.com" = false
      · rw [if_pos h2]
        refine ih _ _ ?_
        rw [List.all_append, h]
        simpa using hp l h2.1 h2.2
      · rw [if_neg h2]; exact ih acc seen h
    · rw [if_neg h1]; exact ih acc seen h

theorem all_take {α : Type} (p : α → Bool) (l : List α) (n : Nat)
    (h : l.all p = true) : (l.take n).all p = true := by
  rw [List.all_eq_true] at h ⊢
  intro x hx
  exact h x ((l.take_sublist n).mem hx)

/-- C7 (amended): every URL kept by the ChatGPT sources extraction is
free of the substring `chatgpt.com` (the citation pass does not filter
`openai.com`); every URL kept by the Perplexity sources extraction is
free of both `perplexity.ai` and `google.com`. -/
theorem claim_c7_amended_source_domain_filters (citations links plinks : List Link) :
    (extract_chatgpt_sources citations links).all
        (fun s => !(containsSub s.url "chatgpt.com")) = true
      ∧ (extract_perplexity_sources plinks).all
        (fun s => !(containsSub s.url "perplexity.ai")
          && !(containsSub s.url "google.com")) = true := by
  constructor
  · unfold extract_chatgpt_sources
    refine all_take _ _ _ ?_
    refine chatgptLinkPass_all _ ?_ links _ _ ?_
    · intro l h1 _; simpa using h1
    · refine chatgptCitationPass_all _ ?_ citations [] rfl
      intro c h1; simpa using h1
  · unfold extract_perplexity_sources
    rw [List.all_eq_true]
    intro s hs
    rw [List.mem_map] at hs
    obtain ⟨a, ha, rfl⟩ := hs
    have ha2 := (List.take_sublist 15 _).mem ha
    rw [List.mem_filter] at ha2
    have := ha2.2
    simp only [Bool.and_eq_true, Bool.not_eq_true'] at this
    simp [this.1.1.2, this.1.2]

/-- C7 counterexample: a citation link to `openai.com` passes the
citation filter (which only excludes `chatgpt.com`) and appears in the
ChatGPT sources output, contradicting the claim that every URL
containing `openai.com` is excluded. -/
theorem claim_c7_counterexample :
    (extract_chatgpt_sources [{ url := "http://openai.com/a", title := "t" }] []).map
        (fun s => s.url) = ["http://openai.com/a"]
      ∧ containsSub "http://openai.com/a" "openai.com" = true := by
  constructor
  · rfl
  · rfl

-- ### Completion pollers ###

/-- The record returned by the DOM evaluation inside
`wait_for_perplexity_response` (lines 268-308). -/
structure PerplexState where
  isGenerating : Bool
  contentLength : Nat
  hasRelated : Bool
  sourceCount : Nat
deriving DecidableEq

/-- Outcome of one poll iteration's `page.evaluate`: either the evaluated
state or a raised exception's message. -/
inductive PollTick where
  | state (st : PerplexState)
  | err (msg : String)

/-- Model of `"closed" in str(e).lower()` (line 339). -/
def msgIndicatesClosed (msg : String) : Bool :=
  infixOf (String.data "closed") (msg.data.map Char.toLower)

/-- The stable-counter update of `wait_for_perplexity_response`
(lines 314-318): increment when the content length equals the previous
tick's and exceeds 200, otherwise reset to zero. -/
def nextStable (st : PerplexState) (lastLen stable : Nat) : Nat :=
  if st.contentLength = lastLen ∧ st.contentLength > 200 then stable + 1 else 0

/-- The polling loop of `wait_for_perplexity_response` (lines 265-347),
instrumented with the number of loop iterations executed.  `i` is the
loop index, `fuel` the remaining iterations, `lastLen`/`stable` the
`last_content_length`/`stable_count` variables.  A raised evaluation
error whose text contains `closed` returns `False` immediately; any
other error leaves the state untouched and continues; exhausting the
loop returns `True` (timeout, proceed anyway). -/
def perplexGo (page : Nat → PollTick) : Nat → Nat → Nat → Nat → Bool × Nat
  | i, 0, _, _ => (true, i)
  | i, fuel' + 1, lastLen, stable =>
    match page i with
    | PollTick.err m =>
      if msgIndicatesClosed m then (false, i + 1)
      else perplexGo page (i + 1) fuel' lastLen stable
    | PollTick.state st =>
      if st.isGenerating = false ∧ st.contentLength > 500 ∧ nextStable st lastLen stable ≥ 3
      then (true, i + 1)
      else if st.hasRelated = true ∧ st.contentLength > 300 then (true, i + 1)
      else perplexGo page (i + 1) fuel' st.contentLength (nextStable st lastLen stable)

/-- Model of `wait_for_perplexity_response(page, max_wait)`: result plus
number of iterations executed. -/
def wait_for_perplexity_response (page : Nat → PollTick) (max_wait : Nat) : Bool × Nat :=
  perplexGo page 0 max_wait 0 0

/-- The record returned by the DOM evaluation inside `wait_for_response`
(lines 386-400). -/
structure ChatState where
  isGenerating : Bool
  hasResponse : Bool
deriving DecidableEq

/-- Outcome of one ChatGPT poll iteration's `page.evaluate`. -/
inductive ChatTick where
  | state (st : ChatState)
  | err (msg : String)

/-- The polling loop of `wait_for_response` (lines 384-414), instrumented
with iteration count.  Every evaluation error is logged and polling
continues (the except branch has no closed-message check); exhausting
the loop returns `False` (timeout, proceed anyway). -/
def chatGo (page : Nat → ChatTick) : Nat → Nat → Bool × Nat
  | i, 0 => (false, i)
  | i, fuel' + 1 =>
    match page i with
    | ChatTick.err _ => chatGo page (i + 1) fuel'
    | ChatTick.state st =>
      if st.hasResponse = true ∧ st.isGenerating = false then (true, i + 1)
      else chatGo page (i + 1) fuel'

/-- Model of `wait_for_response(browser_computer, max_wait)`. -/
def wait_for_response (page : Nat → ChatTick) (max_wait : Nat) : Bool × Nat :=
  chatGo page 0 max_wait

-- ### Error-free trace view of the Perplexity poller (for C4/C5) ###

/-- A page whose evaluation succeeds on every tick, yielding `t i`. -/
def pageOfTrace (t : Nat → PerplexState) : Nat → PollTick :=
  fun i => PollTick.state (t i)

/-- A ChatGPT page whose evaluation succeeds on every tick. -/
def chatPageOfTrace (t : Nat → ChatState) : Nat → ChatTick :=
  fun i => ChatTick.state (t i)

/-- The content length seen on the tick before `i` (0 before the first
tick, matching `last_content_length = 0`). -/
def prevLen (t : Nat → PerplexState) : Nat → Nat
  | 0 => 0
  | i + 1 => (t i).contentLength

/-- Specification-side reconstruction of the stable counter after tick
`i`: reset to zero whenever the content length changed from the previous
tick or does not exceed 200, incremented otherwise. -/
def specStable (t : Nat → PerplexState) : Nat → Nat
  | 0 =>
    if (t 0).contentLength = prevLen t 0 ∧ (t 0).contentLength > 200 then 1 else 0
  | i + 1 =>
    if (t (i + 1)).contentLength = prevLen t (i + 1) ∧ (t (i + 1)).contentLength > 200
    then specStable t i + 1 else 0

/-- The stable counter the loop holds when entering tick `i`. -/
def stableBefore (t : Nat → PerplexState) : Nat → Nat
  | 0 => 0
  | i + 1 => specStable t i

/-- The Perplexity poller's exit condition at tick `i` of an error-free
trace: either the stable-content condition or the related-section
condition. -/
def doneAt (t : Nat → PerplexState) (i : Nat) : Prop :=
  ((t i).isGenerating = false ∧ (t i).contentLength > 500 ∧ specStable t i ≥ 3)
    ∨ ((t i).hasRelated = true ∧ (t i).contentLength > 300)

instance doneAtDecidable (t : Nat → PerplexState) (i : Nat) : Decidable (doneAt t i) := by
  unfold doneAt; infer_instance

theorem stable_step (t : Nat → PerplexState) (i : Nat) :
    nextStable (t i) (prevLen t i) (stableBefore t i) = specStable t i := by
  cases i with
  | zero => simp [nextStable, specStable, stableBefore]
  | succ j => simp [nextStable, specStable, stableBefore]

theorem perplexGo_no_done (t : Nat → PerplexState) : ∀ (fuel i : Nat),
    (∀ j, i ≤ j → j < i + fuel → ¬ doneAt t j) →
    perplexGo (pageOfTrace t) i fuel (prevLen t i) (stableBefore t i) = (true, i + fuel) := by
  intro fuel
  induction fuel with
  | zero => intro i _; simp [perplexGo]
  | succ fuel' ih =>
    intro i h
    have hdone := h i (Nat.le_refl i) (by omega)
    rw [doneAt] at hdone
    have h1 : ¬((t i).isGenerating = false ∧ (t i).contentLength > 500
        ∧ nextStable (t i) (prevLen t i) (stableBefore t i) ≥ 3) := by
      rw [stable_step]; exact fun hc => hdone (Or.inl hc)
    have h2 : ¬((t i).hasRelated = true ∧ (t i).contentLength > 300) :=
      fun hc => hdone (Or.inr hc)
    simp only [perplexGo, pageOfTrace, if_neg h1, if_neg h2]
    have harg1 : (t i).contentLength = prevLen t (i + 1) := rfl
    have harg2 : nextStable (t i) (prevLen t i) (stableBefore t i) = stableBefore t (i + 1) := by
      rw [stable_step]; rfl
    rw [harg1, harg2, ih (i + 1) (by intro j hj1 hj2; exact h j (by omega) (by omega))]
    congr 1
    omega

theorem perplexGo_done (t : Nat → PerplexState) : ∀ (fuel i m : Nat),
    i ≤ m → m < i + fuel →
    (∀ j, i ≤ j → j < m → ¬ doneAt t j) →
    (t m).isGenerating = false → (t m).contentLength > 500 → specStable t m ≥ 3 →
    perplexGo (pageOfTrace t) i fuel (prevLen t i) (stableBefore t i) = (true, m + 1) := by
  intro fuel
  induction fuel with
  | zero => intro i m _ hlt _ _ _ _; omega
  | succ fuel' ih =>
    intro i m him hlt h hgen hlen hstable
    rcases Nat.eq_or_lt_of_le him with heq | hltim
    · subst heq
      have hcond : (t i).isGenerating = false ∧ (t i).contentLength > 500
          ∧ nextStable (t i) (prevLen t i) (stableBefore t i) ≥ 3 := by
        rw [stable_step]; exact ⟨hgen, hlen, hstable⟩
      simp only [perplexGo, pageOfTrace, if_pos hcond]
    · have hdone := h i (Nat.le_refl i) hltim
      rw [doneAt] at hdone
      have h1 : ¬((t i).isGenerating = false ∧ (t i).contentLength > 500
          ∧ nextStable (t i) (prevLen t i) (stableBefore t i) ≥ 3) := by
        rw [stable_step]; exact fun hc => hdone (Or.inl hc)
      have h2 : ¬((t i).hasRelated = true ∧ (t i).contentLength > 300) :=
        fun hc => hdone (Or.inr hc)
      simp only [perplexGo, pageOfTrace, if_neg h1, if_neg h2]
      have harg1 : (t i).contentLength = prevLen t (i + 1) := rfl
      have harg2 : nextStable (t i) (prevLen t i) (stableBefore t i) = stableBefore t (i + 1) := by
        rw [stable_step]; rfl
      rw [harg1, harg2]
      exact ih (i + 1) m hltim (by omega) (fun j hj1 hj2 => h j (by omega) hj2) hgen hlen hstable

theorem chatGo_no_done (t : Nat → ChatState)
    (h : ∀ j, ¬((t j).hasResponse = true ∧ (t j).isGenerating = false)) :
    ∀ (fuel i : Nat), chatGo (chatPageOfTrace t) i fuel = (false, i + fuel) := by
  intro fuel
  induction fuel with
  | zero => intro i; simp [chatGo]
  | succ fuel' ih =>
    intro i
    simp only [chatGo, chatPageOfTrace, if_neg (h i)]
    rw [ih (i + 1)]
    congr 1
    omega

-- ### C4 ###

/-- C4: in the Perplexity completion poller, the stable counter follows
the reset/increment law captured by `specStable` (reset to zero when the
content length changes from the previous tick or does not exceed 200,
incremented otherwise), and at the first still-polling tick `i` where
that counter has reached 3 while the page is not generating and the
content length exceeds 500, the poller reports DONE on that very tick:
it stops having executed exactly `i + 1` iterations. -/
theorem claim_c4_stable_counter_done_on_tick (t : Nat → PerplexState) (max_wait i : Nat)
    (hcap : i < max_wait)
    (hnd : ∀ j, j < i → ¬ doneAt t j)
    (hgen : (t i).isGenerating = false)
    (hlen : (t i).contentLength > 500)
    (hstable : specStable t i ≥ 3) :
    wait_for_perplexity_response (pageOfTrace t) max_wait = (true, i + 1) :=
  perplexGo_done t max_wait 0 i (Nat.zero_le i) (by omega)
    (fun j _ hj => hnd j hj) hgen hlen hstable

/-- Trace used by the C4 witness: constant non-generating state with a
stable 600-character answer, so the counter reaches 3 on tick 3. -/
def traceC4 : Nat → PerplexState :=
  fun _ => { isGenerating := false, contentLength := 600, hasRelated := false, sourceCount := 0 }

theorem claim_c4_witness :
    wait_for_perplexity_response (pageOfTrace traceC4) 60 = (true, 4) :=
  claim_c4_stable_counter_done_on_tick traceC4 60 3 (by decide)
    (by decide) rfl (by decide) (by decide)

-- ### C5 ###

/-- C5 (amended): for every error-free page whose evaluated state never
stops indicating generating — and, for the Perplexity poller, never
satisfies the related-section exit (`hasRelated` with content length
above 300) — each completion poller executes exactly its configured tick
cap `max_wait` and returns normally with the non-exception
proceed-anyway result (`True` for Perplexity, `False` for ChatGPT)
rather than raising. -/
theorem claim_c5_amended_timeout_exact_cap (t : Nat → PerplexState) (tc : Nat → ChatState)
    (max_wait : Nat)
    (hgen : ∀ i, (t i).isGenerating = true)
    (hrel : ∀ i, ¬((t i).hasRelated = true ∧ (t i).contentLength > 300))
    (hcgen : ∀ i, (tc i).isGenerating = true) :
    wait_for_perplexity_response (pageOfTrace t) max_wait = (true, max_wait)
      ∧ wait_for_response (chatPageOfTrace tc) max_wait = (false, max_wait) := by
  constructor
  · have h := perplexGo_no_done t max_wait 0 (by
      intro j _ _
      rw [doneAt]
      rintro (⟨hz, _, _⟩ | ⟨hr, hlen⟩)
      · rw [hgen j] at hz; cases hz
      · exact hrel j ⟨hr, hlen⟩)
    simpa [wait_for_perplexity_response] using h
  · have h := chatGo_no_done tc (by
      intro j hj
      rw [hcgen j] at hj
      cases hj.2) max_wait 0
    simpa [wait_for_response] using h

/-- Always-generating traces for the C5 witness. -/
def traceC5gen : Nat → PerplexState :=
  fun _ => { isGenerating := true, contentLength := 600, hasRelated := false, sourceCount := 0 }

def traceC5chat : Nat → ChatState :=
  fun _ => { isGenerating := true, hasResponse := true }

theorem claim_c5_amended_witness :
    wait_for_perplexity_response (pageOfTrace traceC5gen) 4 = (true, 4)
      ∧ wait_for_response (chatPageOfTrace traceC5chat) 4 = (false, 4) :=
  claim_c5_amended_timeout_exact_cap traceC5gen traceC5chat 4
    (fun _ => rfl) (fun _ h => by simp [traceC5gen] at h) (fun _ => rfl)

/-- Trace refuting C5 as stated: the page never stops indicating
generating, yet a visible related section with 400 characters of content
makes the Perplexity poller exit on the very first tick instead of
running its full tick cap. -/
def traceC5ce : Nat → PerplexState :=
  fun _ => { isGenerating := true, contentLength := 400, hasRelated := true, sourceCount := 0 }

/-- C5 counterexample: with the always-generating trace `traceC5ce` and a
cap of 5 ticks, the Perplexity poller terminates after 1 tick, not
exactly 5, because the related-section exit does not check the
generating indicator. -/
theorem claim_c5_counterexample :
    (∀ i, (traceC5ce i).isGenerating = true)
      ∧ wait_for_perplexity_response (pageOfTrace traceC5ce) 5 = (true, 1)
      ∧ (1 : Nat) ≠ 5 :=
  ⟨fun _ => rfl, by decide, by decide⟩

-- ### C3 ###

/-- C3 (amended): the Perplexity poller stops immediately and returns the
hard-failure result `False` when a poll-iteration error's text contains
`closed` (case-insensitively), and continues polling with unchanged
state on any other error; the ChatGPT poller has no closed-error check
and continues polling on every error, closed-indicating or not. -/
theorem claim_c3_amended_closed_error_handling (page : Nat → PollTick)
    (cpage : Nat → ChatTick) (i fuel lastLen stable : Nat) (m : String) :
    (page i = PollTick.err m → msgIndicatesClosed m = true →
        perplexGo page i (fuel + 1) lastLen stable = (false, i + 1))
      ∧ (page i = PollTick.err m → msgIndicatesClosed m = false →
        perplexGo page i (fuel + 1) lastLen stable = perplexGo page (i + 1) fuel lastLen stable)
      ∧ (cpage i = ChatTick.err m →
        chatGo cpage i (fuel + 1) = chatGo cpage (i + 1) fuel) := by
    refine ⟨?_, ?_, ?_⟩
    · intro hp hm
      simp only [perplexGo, hp, hm, if_true]
    · intro hp hm
      simp [perplexGo, hp, hm]
    · intro hp
      simp only [chatGo, hp]

/-- Pages used by the C3 witness. -/
def pageClosedErr : Nat → PollTick :=
  fun _ => PollTick.err "Target page, context or browser has been closed"

def pageOtherErr : Nat → PollTick :=
  fun _ => PollTick.err "Execution context was destroyed"

def cpageClosedErr : Nat → ChatTick :=
  fun _ => ChatTick.err "Target page, context or browser has been closed"

theorem claim_c3_amended_witness :
    perplexGo pageClosedErr 0 3 0 0 = (false, 1)
      ∧ perplexGo pageOtherErr 0 3 0 0 = perplexGo pageOtherErr 1 2 0 0
      ∧ chatGo cpageClosedErr 0 3 = chatGo cpageClosedErr 1 2 :=
  ⟨(claim_c3_amended_closed_error_handling pageClosedErr cpageClosedErr 0 2 0 0
      "Target page, context or browser has been closed").1 rfl (by decide),
   (claim_c3_amended_closed_error_handling pageOtherErr cpageClosedErr 0 2 0 0
      "Execution context was destroyed").2.1 rfl (by decide),
   (claim_c3_amended_closed_error_handling pageOtherErr cpageClosedErr 0 2 0 0
      "Target page, context or browser has been closed").2.2 rfl⟩

/-- ChatGPT page that raises a closed-browser error on tick 0 and then
reports a finished response. -/
def cpageC3ce : Nat → ChatTick :=
  fun i =>
    if i = 0 then ChatTick.err "Target page, context or browser has been closed"
    else ChatTick.state { isGenerating := false, hasResponse := true }

/-- C3 counterexample: after a closed-browser error on tick 0 the ChatGPT
poller keeps polling and returns success on tick 1 instead of stopping
immediately with a hard failure. -/
theorem claim_c3_counterexample :
    wait_for_response cpageC3ce 5 = (true, 2)
      ∧ wait_for_response cpageC3ce 5 ≠ (false, 1) := by
  constructor
  · rfl
  · decide

-- ### BrowserbaseComputer.__exit__ (browserbase.py lines 127-136) ###

/-- Behaviour of the handles during teardown: whether each `close()`
raises, and whether `self._context` / `self._browser` are truthy. -/
structure ExitBehavior where
  pageCloseRaises : Bool
  contextSet : Bool
  contextCloseRaises : Bool
  browserSet : Bool
  browserCloseRaises : Bool
  stopRaises : Bool

/-- One teardown call performed by `__exit__`. -/
inductive CloseCall where
  | pageClose
  | contextClose
  | browserClose
  | playwrightStop
deriving DecidableEq

/-- Model of `BrowserbaseComputer.__exit__`: `self._page.close()`, then
`if self._context: self._context.close()`, then
`if self._browser: self._browser.close()`, then
`self._playwright.stop()` — executed in this textual order with no
exception guards, so a raise at any step skips every later step.
Returns the sequence of calls actually invoked, in execution order, and
whether the method raised. -/
def browserbase_exit (b : ExitBehavior) : List CloseCall × Bool :=
  if b.pageCloseRaises then ([CloseCall.pageClose], true)
  else if b.contextSet && b.contextCloseRaises then
    ([CloseCall.pageClose, CloseCall.contextClose], true)
  else if b.browserSet && b.browserCloseRaises then
    ([CloseCall.pageClose]
      ++ (if b.contextSet then [CloseCall.contextClose] else [])
      ++ [CloseCall.browserClose], true)
  else if b.stopRaises then
    ([CloseCall.pageClose]
      ++ (if b.contextSet then [CloseCall.contextClose] else [])
      ++ (if b.browserSet then [CloseCall.browserClose] else [])
      ++ [CloseCall.playwrightStop], true)
  else
    ([CloseCall.pageClose]
      ++ (if b.contextSet then [CloseCall.contextClose] else [])
      ++ (if b.browserSet then [CloseCall.browserClose] else [])
      ++ [CloseCall.playwrightStop], false)

/-- C2 (amended): `__exit__` closes page, context, browser and stops the
driver strictly in that order (the performed calls are always an
in-order sublist of page-context-browser-stop); the context and browser
closes are guarded only by a truthiness check on the handle, not
against exceptions.  When no close raises, every set handle is released
and the stop runs; when any step raises — `page.close()`,
`context.close()`, `browser.close()` or `playwright.stop()` — the
exception propagates and every later step is skipped, as the exact call
sequences of the four raise cases show. -/
theorem claim_c2_amended_exit_order (b : ExitBehavior) :
    (browserbase_exit b).fst.Sublist
        [CloseCall.pageClose, CloseCall.contextClose, CloseCall.browserClose,
          CloseCall.playwrightStop]
      ∧ (b.pageCloseRaises = false → (b.contextSet && b.contextCloseRaises) = false →
          (b.browserSet && b.browserCloseRaises) = false → b.stopRaises = false →
          browserbase_exit b
            = ([CloseCall.pageClose]
                ++ (if b.contextSet then [CloseCall.contextClose] else [])
                ++ (if b.browserSet then [CloseCall.browserClose] else [])
                ++ [CloseCall.playwrightStop], false))
      ∧ (b.pageCloseRaises = true →
          browserbase_exit b = ([CloseCall.pageClose], true))
      ∧ (b.pageCloseRaises = false → b.contextSet = true → b.contextCloseRaises = true →
          browserbase_exit b = ([CloseCall.pageClose, CloseCall.contextClose], true))
      ∧ (b.pageCloseRaises = false → (b.contextSet && b.contextCloseRaises) = false →
          b.browserSet = true → b.browserCloseRaises = true →
          browserbase_exit b
            = ([CloseCall.pageClose]
                ++ (if b.contextSet then [CloseCall.contextClose] else [])
                ++ [CloseCall.browserClose], true))
      ∧ (b.pageCloseRaises = false → (b.contextSet && b.contextCloseRaises) = false →
          (b.browserSet && b.browserCloseRaises) = false → b.stopRaises = true →
          browserbase_exit b
            = ([CloseCall.pageClose]
                ++ (if b.contextSet then [CloseCall.contextClose] else [])
                ++ (if b.browserSet then [CloseCall.browserClose] else [])
                ++ [CloseCall.playwrightStop], true)) := by
  refine ⟨?_, ?_, ?_, ?_, ?_, ?_⟩
  · rcases b with ⟨p, cs, cr, bs, br, sr⟩
    cases p <;> cases cs <;> cases cr <;> cases bs <;> cases br <;> cases sr <;> decide
  · intro h1 h2 h3 h4
    simp [browserbase_exit, h1, h2, h3, h4]
  · intro h1
    simp [browserbase_exit, h1]
  · intro h1 h2 h3
    simp [browserbase_exit, h1, h2, h3]
  · intro h1 h2 h3 h4
    simp [browserbase_exit, h1, h2, h3, h4]
  · intro h1 h2 h3 h4
    simp [browserbase_exit, h1, h2, h3, h4]

theorem claim_c2_amended_witness :
    browserbase_exit
        { pageCloseRaises := false, contextSet := true, contextCloseRaises := false,
          browserSet := true, browserCloseRaises := false, stopRaises := false }
      = ([CloseCall.pageClose, CloseCall.contextClose, CloseCall.browserClose,
          CloseCall.playwrightStop], false)
      ∧ browserbase_exit
        { pageCloseRaises := true, contextSet := true, contextCloseRaises := false,
          browserSet := true, browserCloseRaises := false, stopRaises := false }
      = ([CloseCall.pageClose], true)
      ∧ browserbase_exit
        { pageCloseRaises := false, contextSet := true, contextCloseRaises := true,
          browserSet := true, browserCloseRaises := false, stopRaises := false }
      = ([CloseCall.pageClose, CloseCall.contextClose], true)
      ∧ browserbase_exit
        { pageCloseRaises := false, contextSet := true, contextCloseRaises := false,
          browserSet := true, browserCloseRaises := true, stopRaises := false }
      = ([CloseCall.pageClose, CloseCall.contextClose, CloseCall.browserClose], true)
      ∧ browserbase_exit
        { pageCloseRaises := false, contextSet := true, contextCloseRaises := false,
          browserSet := true, browserCloseRaises := false, stopRaises := true }
      = ([CloseCall.pageClose, CloseCall.contextClose, CloseCall.browserClose,
          CloseCall.playwrightStop], true) :=
  ⟨(claim_c2_amended_exit_order
      { pageCloseRaises := false, contextSet := true, contextCloseRaises := false,
        browserSet := true, browserCloseRaises := false, stopRaises := false }).2.1
      rfl rfl rfl rfl,
   (claim_c2_amended_exit_order
      { pageCloseRaises := true, contextSet := true, contextCloseRaises := false,
        browserSet := true, browserCloseRaises := false, stopRaises := false }).2.2.1 rfl,
   (claim_c2_amended_exit_order
      { pageCloseRaises := false, contextSet := true, contextCloseRaises := true,
        browserSet := true, browserCloseRaises := false, stopRaises := false }).2.2.2.1
      rfl rfl rfl,
   (claim_c2_amended_exit_order
      { pageCloseRaises := false, contextSet := true, contextCloseRaises := false,
        browserSet := true, browserCloseRaises := true, stopRaises := false }).2.2.2.2.1
      rfl rfl rfl rfl,
   (claim_c2_amended_exit_order
      { pageCloseRaises := false, contextSet := true, contextCloseRaises := false,
        browserSet := true, browserCloseRaises := false, stopRaises := true }).2.2.2.2.2
      rfl rfl rfl rfl⟩

/-- C2 counterexample: when `page.close()` raises while context and
browser handles are set and would close fine, the only call ever
performed is `page.close()` — neither the context close nor the browser
close is invoked, so an exception in one close does prevent the
remaining handles from being closed. -/
theorem claim_c2_counterexample :
    browserbase_exit
        { pageCloseRaises := true, contextSet := true, contextCloseRaises := false,
          browserSet := true, browserCloseRaises := false, stopRaises := false }
      = ([CloseCall.pageClose], true)
      ∧ CloseCall.contextClose ∉ [CloseCall.pageClose]
      ∧ CloseCall.browserClose ∉ [CloseCall.pageClose] := by
  decide

-- ### submit_perplexity_query (lines 128-198) and wait_for_cloudflare (109-125) ###

/-- The loop of `wait_for_cloudflare`: read `page.title().lower()` each
second; keep waiting while it contains a challenge marker, return `True`
as soon as it does not, `False` when `max_wait` ticks expire. -/
def cfGo (titles : Nat → String) : Nat → Nat → Bool
  | _, 0 => false
  | i, fuel' + 1 =>
    if containsSub (strLower (titles i)) "just a moment"
        || containsSub (strLower (titles i)) "checking"
        || containsSub (strLower (titles i)) "cloudflare"
    then cfGo titles (i + 1) fuel'
    else true

/-- Model of `wait_for_cloudflare(page, max_wait)`; the page is
represented by its successive titles. -/
def wait_for_cloudflare (titles : Nat → String) (max_wait : Nat) : Bool :=
  cfGo titles 0 max_wait

/-- Page oracle for `submit_perplexity_query`: which elements resolve and
which interactions raise. -/
structure PerplexPage where
  titles : Nat → String
  hasAskInput : Bool
  fallbackFound : Option Nat
  clickRaises : Bool
  fillRaises : Bool
  closeQueryRaises : Bool
  hasCloseBtn : Bool
  hasSubmitBtn : Bool
  submitClickRaises : Bool
  pressRaises : Bool

/-- Observable page interactions performed by the submitter. -/
inductive PageAction where
  | waitCloudflare (ok : Bool)
  | clickInput
  | fillInput (q : String)
  | clickCloseBtn
  | clickSubmitBtn
  | pressEnter
deriving DecidableEq

/-- Model of `submit_perplexity_query(page, query, captured_responses)`:
wait for Cloudflare, resolve `#ask-input` or one of three fallback
selectors, click and fill the input, best-effort dismiss the signup
popup (querying it is wrapped in an inner try whose failure is
swallowed), then click the submit button if present else press Enter.
Any uncaught step failure is caught by the outer handler, which returns
`False`.  The `captured_responses` argument is never read or written by
the body (it is mentioned only in the docstring).  Returns the boolean
result together with the trace of page actions performed. -/
def submit_perplexity_query (page : PerplexPage) (query : String)
    (captured_responses : List String) : Bool × List PageAction :=
  let cf := wait_for_cloudflare page.titles 30
  let foundInput := page.hasAskInput || page.fallbackFound.isSome
  if foundInput = false then (false, [PageAction.waitCloudflare cf])
  else if page.clickRaises then (false, [PageAction.waitCloudflare cf, PageAction.clickInput])
  else if page.fillRaises then
    (false, [PageAction.waitCloudflare cf, PageAction.clickInput, PageAction.fillInput query])
  else
    let closeActs :=
      if page.closeQueryRaises then ([] : List PageAction)
      else if page.hasCloseBtn then [PageAction.clickCloseBtn] else []
    let base := [PageAction.waitCloudflare cf, PageAction.clickInput,
      PageAction.fillInput query] ++ closeActs
    if page.hasSubmitBtn then
      if page.submitClickRaises then (false, base ++ [PageAction.clickSubmitBtn])
      else (true, base ++ [PageAction.clickSubmitBtn])
    else
      if page.pressRaises then (false, base ++ [PageAction.pressEnter])
      else (true, base ++ [PageAction.pressEnter])

/-- C10: the result and the performed page actions of
`submit_perplexity_query` are independent of its `captured_responses`
argument — for any two values of that argument and the same page
behaviour, the function returns the same boolean and the same action
trace (the body never reads from or writes to `captured_responses`). -/
theorem claim_c10_captured_responses_independent (page : PerplexPage) (q : String)
    (cr1 cr2 : List String) :
    submit_perplexity_query page q cr1 = submit_perplexity_query page q cr2 := rfl

-- ### extract_perplexity_data (lines 574-663) ###

/-- DOM fixture seen by `extract_perplexity_data`'s page evaluation:
texts of the matched answer-container candidates in selector order, all
`a[href^="http"]` anchors, the texts collected by the related-queries
selector passes (in document order), and the texts of all
`button, [role="button"]` elements. -/
structure PerplexityDom where
  answerTexts : List String
  links : List Link
  relatedCandidates : List String
  buttonTexts : List String

/-- The record produced by `extract_perplexity_data`. -/
structure PerplexityPayload where
  answer : String
  sources : List Link
  relatedQueries : List String
deriving DecidableEq

/-- The question-looking-buttons pass (lines 639-646): trimmed button
text is appended when it is truthy, contains a question mark, has length
strictly between 15 and 150, and is not already in the accumulated
related-queries list. -/
def relatedButtonFold : List String → List String → List String
  | acc, [] => acc
  | acc, bt :: rest =>
    if strTrim bt ≠ "" ∧ containsSub (strTrim bt) "?" = true
        ∧ (strTrim bt).length > 15 ∧ (strTrim bt).length < 150
        ∧ acc.contains (strTrim bt) = false then
      relatedButtonFold (acc ++ [strTrim bt]) rest
    else relatedButtonFold acc rest

/-- Model of `extract_perplexity_data`: the answer is the first candidate
container text longer than 50 characters (truncated to 3000), the
sources are the filtered outbound links, and the related queries are the
selector-pass texts with length in (10, 200) plus the question-looking
buttons, de-duplicated in first-seen order (`[...new Set(...)]`) and
capped at 10. -/
def extract_perplexity_data (d : PerplexityDom) : PerplexityPayload :=
  let answer := (d.answerTexts.find? (fun t => decide (t.length > 50))).getD ""
  let rel1 := (d.relatedCandidates.map strTrim).filter
    (fun t => !(t == "") && decide (t.length > 10) && decide (t.length < 200))
  let rel := relatedButtonFold rel1 d.buttonTexts
  { answer := strTake 3000 answer,
    sources := extract_perplexity_sources d.links,
    relatedQueries := (dedupFirst [] rel).take 10 }

-- ### query_service / fanout_query (lines 666-847) ###

/-- Result of running the body of `query_service`'s `with` block for one
service: either it completes producing data, or some step raises. -/
inductive PathOutcome (α : Type) where
  | raise (msg : String)
  | run (val : α)

/-- Oracle inputs for a completed ChatGPT run: the citation anchors and
general anchors seen by the extraction script, the raw (pre-dedup)
detected query strings, and the assistant response text. -/
structure ChatgptRun where
  citations : List Link
  links : List Link
  queries : List String
  responseText : String

/-- Oracle inputs for a completed Perplexity run: whether a
`perplexity_ask` request id was captured, the SSE body returned by
`Network.getResponseBody` (empty string when unavailable), and the DOM
fixture. -/
structure PerplexityRun where
  captured : Bool
  sseBody : String
  dom : PerplexityDom

/-- Browser-environment oracle for `query_service`: what each service's
session would produce. -/
structure Env where
  chatgptRun : PathOutcome ChatgptRun
  perplexityRun : PathOutcome PerplexityRun

/-- Per-service extracted payload. -/
inductive ExtractedData where
  | chatgptData (queries : List String) (response : String) (sources : List Link)
  | perplexityData (payload : PerplexityPayload)
deriving DecidableEq

/-- A `query_service` result dict; keys absent from a branch's dict are
`none` (the nondeterministic `timestamp` key is omitted). -/
structure QueryResult where
  service : String
  serviceName : Option String
  query : String
  method : Option String
  extracted : Option ExtractedData
  success : Option Bool
  error : Option String
deriving DecidableEq

/-- The static `SERVICES` registry (key, display name). -/
def SERVICES : List (String × String) :=
  [("chatgpt", "ChatGPT"), ("perplexity", "Perplexity")]

def SERVICES_keys : List String := SERVICES.map Prod.fst

/-- Lines 738-748 of `query_service`: the related queries recovered from
the CDP-captured SSE body — empty unless a request id was captured and
the fetched body is non-empty, otherwise the regex extraction (without
any de-duplication at this call site). -/
def sseRelated (captured : Bool) (body : String) : List String :=
  if captured = true ∧ body ≠ "" then matchedQueriesOfBody body else []

/-- Lines 750-756: extract from the DOM, then overwrite `relatedQueries`
with the SSE-derived list when that list is non-empty. -/
def perplexityExtracted (p : PerplexityRun) : PerplexityPayload :=
  let sse := sseRelated p.captured p.sseBody
  let payload := extract_perplexity_data p.dom
  if sse ≠ [] then { payload with relatedQueries := sse } else payload

/-- The extraction outcome of `query_service`'s `with` block for a known
service, dispatching on the service key exactly as the source does. -/
def serviceOutcome (env : Env) (service_name : String) : PathOutcome ExtractedData :=
  if service_name == "chatgpt" then
    match env.chatgptRun with
    | PathOutcome.raise m => PathOutcome.raise m
    | PathOutcome.run c =>
      PathOutcome.run (ExtractedData.chatgptData
        ((dedupFirst [] c.queries).take 10)
        (strTake 2000 c.responseText)
        (extract_chatgpt_sources c.citations c.links))
  else
    match env.perplexityRun with
    | PathOutcome.raise m => PathOutcome.raise m
    | PathOutcome.run p =>
      PathOutcome.run (ExtractedData.perplexityData (perplexityExtracted p))

/-- Model of `query_service(service_name, query)` together with the
number of remote browser sessions it attempts to open.  An unknown
service key short-circuits to the error dict of lines 678-683 (which has
no `success` key); a known service opens exactly one session and yields
either the success dict (lines 758-766) or the failure dict (lines
771-778). -/
def query_service_run (env : Env) (service_name query : String) : QueryResult × Nat :=
  if SERVICES_keys.contains service_name = false then
    ({ service := service_name, serviceName := none, query := query, method := none,
       extracted := none, success := none,
       error := some ("Unknown service: " ++ service_name) }, 0)
  else
    let displayName := ((SERVICES.find? (fun pr => pr.fst == service_name)).map Prod.snd).getD ""
    match serviceOutcome env service_name with
    | PathOutcome.raise m =>
      ({ service := service_name, serviceName := some displayName, query := query,
         method := none, extracted := none, success := some false, error := some m }, 1)
    | PathOutcome.run ed =>
      ({ service := service_name, serviceName := some displayName, query := query,
         method := some "playwright", extracted := some ed, success := some true,
         error := none }, 1)

/-- The result dict of `query_service`. -/
def query_service (env : Env) (service_name query : String) : QueryResult :=
  (query_service_run env service_name query).fst

/-- Model of `fanout_query(query, services, output_file)`: default to all
configured services, then query each requested service sequentially and
collect the results in order (printing and the optional JSON dump are
side effects outside the model). -/
def fanout_query (env : Env) (query : String) (services : Option (List String)) :
    List QueryResult :=
  (services.getD SERVICES_keys).map (fun s => query_service env s query)

/-- The `relatedQueries` component of a result's extracted payload. -/
def resultRelated (r : QueryResult) : Option (List String) :=
  match r.extracted with
  | some (ExtractedData.perplexityData p) => some p.relatedQueries
  | _ => none

-- ### C9 ###

theorem query_service_fields (env : Env) (name q : String) :
    (query_service env name q).query = q ∧ (query_service env name q).service = name := by
  unfold query_service query_service_run
  by_cases h : SERVICES_keys.contains name = false
  · rw [if_pos h]; exact ⟨rfl, rfl⟩
  · rw [if_neg h]
    rcases hso : serviceOutcome env name with m | ed <;> exact ⟨rfl, rfl⟩

/-- C9: `fanout_query` returns exactly one result per requested service,
in the same order as the requested list; every result's `query` field
equals the input query and its `service` field the requested key; and an
omitted service list defaults to all configured services. -/
theorem claim_c9_fanout_one_result_per_service (env : Env) (q : String)
    (services : Option (List String)) :
    (fanout_query env q services).map (fun r => r.query)
        = (services.getD SERVICES_keys).map (fun _ => q)
      ∧ (fanout_query env q services).map (fun r => r.service) = services.getD SERVICES_keys
      ∧ (fanout_query env q services).length = (services.getD SERVICES_keys).length
      ∧ fanout_query env q none = fanout_query env q (some SERVICES_keys) := by
  refine ⟨?_, ?_, ?_, rfl⟩
  · unfold fanout_query
    induction services.getD SERVICES_keys with
    | nil => rfl
    | cons s rest ih => simp [ih, (query_service_fields env s q).1]
  · unfold fanout_query
    induction services.getD SERVICES_keys with
    | nil => rfl
    | cons s rest ih => simp [ih, (query_service_fields env s q).2]
  · unfold fanout_query
    simp

-- ### C1 ###

/-- C1 (amended): for a service key absent from `SERVICES`,
`query_service` returns the short-circuit record with NO `success` key
at all (`none`, falsy when read with `.get` but not the value `False`),
with error message `Unknown service: <key>`, and opens no remote browser
session; `fanout_query` on a one-element list with that key returns
exactly the one-element list holding that record. -/
theorem claim_c1_amended_unknown_service (env : Env) (name q : String)
    (h : SERVICES_keys.contains name = false) :
    (query_service env name q).success = none
      ∧ (query_service env name q).error = some ("Unknown service: " ++ name)
      ∧ (query_service_run env name q).snd = 0
      ∧ fanout_query env q (some [name]) = [query_service env name q] := by
  have h' : name ∉ SERVICES_keys := by simpa using h
  refine ⟨?_, ?_, ?_, ?_⟩ <;>
    simp [query_service, query_service_run, fanout_query, h']

/-- Concrete environment whose known-service runs would raise; unused by
the unknown-service path. -/
def env0 : Env :=
  { chatgptRun := PathOutcome.raise "boom", perplexityRun := PathOutcome.raise "boom" }

theorem claim_c1_amended_witness :
    (query_service env0 "unknownservice" "capital of France").success = none
      ∧ (query_service env0 "unknownservice" "capital of France").error
          = some ("Unknown service: " ++ "unknownservice")
      ∧ (query_service_run env0 "unknownservice" "capital of France").snd = 0
      ∧ fanout_query env0 "capital of France" (some ["unknownservice"])
          = [query_service env0 "unknownservice" "capital of France"] :=
  claim_c1_amended_unknown_service env0 "unknownservice" "capital of France" (by decide)

/-- C1 counterexample: the unknown-service record's `success` flag is not
`False` — the dict returned at lines 678-683 carries no `success` key at
all, so the claim "returns a result record whose success flag is False"
fails on the code. -/
theorem claim_c1_counterexample :
    (query_service env0 "unknownservice" "capital of France").success ≠ some false := by
  decide

-- ### C8 ###

/-- C8: in the Perplexity path of `query_service`, whenever the
network-capture (SSE) related-queries list is non-empty it replaces the
DOM-derived `relatedQueries` in the final extracted payload, and
whenever it is empty the DOM-derived list is kept unchanged. -/
theorem claim_c8_sse_precedence (captured : Bool) (body q : String)
    (dom : PerplexityDom) (cgo : PathOutcome ChatgptRun) :
    (sseRelated captured body ≠ [] →
      resultRelated (query_service
          { chatgptRun := cgo,
            perplexityRun := PathOutcome.run
              { captured := captured, sseBody := body, dom := dom } } "perplexity" q)
        = some (sseRelated captured body))
      ∧ (sseRelated captured body = [] →
      resultRelated (query_service
          { chatgptRun := cgo,
            perplexityRun := PathOutcome.run
              { captured := captured, sseBody := body, dom := dom } } "perplexity" q)
        = some (extract_perplexity_data dom).relatedQueries) := by
  constructor
  · intro h
    show some (perplexityExtracted
        { captured := captured, sseBody := body, dom := dom }).relatedQueries
      = some (sseRelated captured body)
    simp only [perplexityExtracted]
    rw [if_pos h]
  · intro h
    show some (perplexityExtracted
        { captured := captured, sseBody := body, dom := dom }).relatedQueries
      = some (extract_perplexity_data dom).relatedQueries
    simp only [perplexityExtracted]
    rw [if_neg (by simp [h])]

/-- An SSE body containing one related-queries array. -/
def sseBodyW : String := "related_queries\": [\"alpha\"]"

/-- A DOM fixture whose related-queries selector pass yields one text. -/
def domW : PerplexityDom :=
  { answerTexts := [], links := [], relatedCandidates := ["what is love today"],
    buttonTexts := [] }

/-- The empty DOM fixture. -/
def domEmpty : PerplexityDom :=
  { answerTexts := [], links := [], relatedCandidates := [], buttonTexts := [] }

theorem claim_c8_witness :
    resultRelated (query_service
        { chatgptRun := PathOutcome.raise "x",
          perplexityRun := PathOutcome.run
            { captured := true, sseBody := sseBodyW, dom := domEmpty } } "perplexity" "q")
      = some (sseRelated true sseBodyW)
      ∧ resultRelated (query_service
        { chatgptRun := PathOutcome.raise "x",
          perplexityRun := PathOutcome.run
            { captured := false, sseBody := "", dom := domW } } "perplexity" "q")
      = some (extract_perplexity_data domW).relatedQueries :=
  ⟨(claim_c8_sse_precedence true sseBodyW "q" domEmpty (PathOutcome.raise "x")).1 (by decide),
   (claim_c8_sse_precedence false "" "q" domW (PathOutcome.raise "x")).2 (by decide)⟩

end QueryFanout
